import Mathlib

/-!
LSPatch patch loader: hook replacements and attach sequence.

A shallow embedding of the native patch loader of LSPatch
(`patch-loader/src/main/jni`):

* `art/runtime/jit/profile_saver.h`: the two profile-saving stubs, the
  `execve` stub that appends a flag to the `dex2oat` command line, and
  `DisableInline`;
* `jni/bypass_sig.cpp`: the `__openat` stub and `enableOpenatHook`;
* `patch_loader.cpp`: `LoadDex`, `InitHooks`, `SetupEntryClass`, `Load`.

Everything the sources call but do not define (the hooking helpers of the
hook library, JNI, the logging helpers, the base class `Context`) is a field of
`Externals`: a state transformer over an arbitrary world `W`, so every theorem
holds for every behaviour of those callees that returns to its caller.
Each call that leaves the modelled code is recorded in a trace of `Event`s; the
order of the trace is the order of the statements of the source, the release of
a scoped JNI local reference standing where its scope ends.
-/

namespace LSPatch

/-! ## Data model -/

/-- A machine pointer or opaque JNI reference; `0` is the null pointer. -/
abbrev Ptr := Nat

/-- The null pointer. -/
def nullptr : Ptr := 0

/-- A C string, represented by the characters before its terminating NUL.
A nullable `const char*` is an `Option CStr`. -/
abbrev CStr := List Char

/-- An array of `const char*` as laid out in memory: the slots of the allocated
block, `none` being a null slot.  Reading or writing past the block faults. -/
abbrev ArgBlock := List (Option CStr)

/-- Undefined behaviour the model detects instead of performing. -/
inductive Fault where
  | nullPointer
  | readOutOfBounds (index : Nat)
  | writeOutOfBounds (index : Nat)
  | outOfFuel
  deriving DecidableEq, Repr

instance instDecidableEqExcept {ε α : Type} [DecidableEq ε] [DecidableEq α] :
    DecidableEq (Except ε α)
  | .ok a, .ok b => if h : a = b then isTrue (by rw [h]) else isFalse (fun e => h (by cases e; rfl))
  | .error a, .error b =>
    if h : a = b then isTrue (by rw [h]) else isFalse (fun e => h (by cases e; rfl))
  | .ok _, .error _ => isFalse (fun e => by cases e)
  | .error _, .ok _ => isFalse (fun e => by cases e)

/-- The JNI calls made by the patch loader, with the arguments they are given. -/
inductive JniCall where
  | FindClass (name : String)
  | GetStaticMethodID (cls : Ptr) (name sig : String)
  | GetMethodID (cls : Ptr) (name sig : String)
  | GetFieldID (cls : Ptr) (name sig : String)
  | GetStaticFieldID (cls : Ptr) (name sig : String)
  | CallStaticObjectMethod (cls mid : Ptr)
  | GetObjectField (obj fid : Ptr)
  | CallObjectMethod (obj mid : Ptr)
  | GetStaticObjectField (cls fid : Ptr)
  | GetByteArrayElements (array : Ptr)
  | GetArrayLength (array : Ptr)
  | NewDirectByteBuffer (data : Ptr) (size : Nat)
  | NewObject (cls mid : Ptr) (args : List Ptr)
  | NewGlobalRef (obj : Ptr)
  | DeleteLocalRef (obj : Ptr)
  deriving DecidableEq, Repr

/-- What the modelled code does that is visible outside it, in program order. -/
inductive Event where
  | LOGD (fmt : String) (args : List CStr)
  | LOGE (fmt : String)
  | InitSymbolCache
  | jni (call : JniCall) (result : Ptr)
  | ContextInitHooks
  | HookSyms (syms : List String) (result : Bool)
  | ElfImgGetSymbAddress (lib sym : String) (result : Ptr)
  | HookSymNoHandle (sym : String) (original : Ptr) (result : Bool)
  | DisableBackgroundVerification
  | RegisterNatives (cls : String) (methods : List String)
  | FindClassFromLoader (loader : Ptr) (name : String) (result : Ptr)
  | FindAndCall (method sig : String)
  | backupExecve (pathname : CStr) (argv : ArgBlock) (envp : Ptr) (ret : Int)
  | backupOpenat (fd : Int) (pathname : CStr) (flag mode : Int) (ret : Int)
  deriving DecidableEq, Repr

/-- The capability bundle `lsplant::InitInfo` (also named `HookHandler`). -/
structure InitInfo (W : Type) where
  inline_hooker : Ptr → Ptr → W → Ptr × W
  inline_unhooker : Ptr → W → Bool × W
  art_symbol_resolver : String → W → Ptr × W
  art_symbol_prefix_resolver : String → W → Ptr × W

/-- A `HookHandler` object; `none` is the default-constructed bundle, whose function
fields are empty. -/
abbrev HookHandler (W : Type) := Option (InitInfo W)

/-- The buffer `Context::PreloadedDex` wraps: `data()` and `size()`. -/
structure PreloadedDex where
  data : Ptr
  size : Nat
  deriving DecidableEq, Repr

/-- The process state the modelled code reads and writes: the globals of
`bypass_sig.cpp` and `patch_loader.h`, the two fields of `Context` that
`PatchLoader` assigns, the world of the callees, and the trace. -/
structure State (W : Type) where
  world : W
  trace : List Event
  apkPath : CStr
  redirectPath : CStr
  handler : HookHandler W
  inject_class_loader_ : Ptr
  entry_class_ : Ptr

/-- The state at process start: both path globals are empty strings, `handler`
is default-constructed, the `Context` references are null. -/
def State.initial {W : Type} (w : W) : State W :=
  { world := w, trace := [], apkPath := [], redirectPath := [], handler := none,
    inject_class_loader_ := nullptr, entry_class_ := nullptr }

/-- Append one event to the trace. -/
def State.emit {W : Type} (s : State W) (e : Event) : State W :=
  { s with trace := s.trace ++ [e] }

/-- Code and constants the sources use but do not define. -/
structure Externals (W : Type) where
  RS_SUCCESS : Int
  RT_SUCCESS : Int
  /-- The call `HookFunction(t, r, &bk)`: given the value `bk` holds before the call,
  the status and the value `bk` holds after it. -/
  HookFunction : Ptr → Ptr → Ptr → W → (Int × Ptr) × W
  UnhookFunction : Ptr → W → Int × W
  getSymbAddress : String → W → Ptr × W
  getSymbPrefixFirstOffset : String → W → Ptr × W
  InitSymbolCache : W → W
  jni : JniCall → W → Ptr × W
  /-- The base-class method `Context::InitHooks(env, handler)`. -/
  ContextInitHooks : HookHandler W → W → W
  /-- The helper `HookSyms(handler, stubs...)`, given the symbols of the stubs. -/
  HookSyms : HookHandler W → List String → W → Bool × W
  /-- The helper `HookSymNoHandle(handler, original, stub)`, given the name of the stub. -/
  HookSymNoHandle : HookHandler W → Ptr → String → W → Bool × W
  /-- The lookup `SandHook::ElfImg(lib).getSymbAddress<void*>(sym)`. -/
  ElfImgGetSymbAddress : String → String → W → Ptr × W
  DisableBackgroundVerification : HookHandler W → W → W
  /-- The macro `REGISTER_LSP_NATIVE_METHODS(cls)` over the methods of `gMethods`. -/
  RegisterNatives : String → List String → W → W
  /-- The getter `Context::GetCurrentClassLoader()`, given `inject_class_loader_`. -/
  GetCurrentClassLoader : Ptr → Ptr
  FindClassFromLoader : Ptr → String → W → Ptr × W
  /-- The method `Context::FindAndCall(env, name, sig)`, given `entry_class_`. -/
  FindAndCall : Ptr → String → String → W → W
  /-- The address of the libc function `execve`. -/
  execveAddress : Ptr

/-! ## libc -/

/-- The C library function `strstr`: the offset of the first occurrence of `needle` in
`haystack`, `none` for the null result. -/
def strstr : CStr → CStr → Option Nat
  | [], needle => if needle.isPrefixOf [] then some 0 else none
  | c :: rest, needle =>
    if needle.isPrefixOf (c :: rest) then some 0
    else (strstr rest needle).map (· + 1)

/-! ## art/runtime/jit/profile_saver.h -/

namespace art

/-- The flag the `execve` stub appends. -/
def inlineFlag : CStr := "--inline-max-code-units=0".toList

/-- The local state of the `dex2oat` branch of `execve`, with the indices of
`argv` it has read and of `new_args` it has written, in order. -/
structure ArgBuild where
  count : Nat
  slots : Nat
  new_args : ArgBlock
  reads : List Nat
  writes : List Nat
  deriving DecidableEq, Repr

/-- Read `argv[i]`. -/
def readSlot (argv : ArgBlock) (i : Nat) : Except Fault (Option CStr) :=
  match argv[i]? with
  | some p => .ok p
  | none => .error (.readOutOfBounds i)

/-- Write `new_args[i] = v`. -/
def writeSlot (new_args : ArgBlock) (i : Nat) (v : Option CStr) : Except Fault ArgBlock :=
  if i < new_args.length then .ok (new_args.set i v) else .error (.writeOutOfBounds i)

/-- The loop `while (argv[count++] != nullptr);`: the final `count` and the indices read. -/
def countLoop (argv : ArgBlock) : Nat → Nat → List Nat → Except Fault (Nat × List Nat)
  | 0, _, _ => .error .outOfFuel
  | fuel + 1, count, reads =>
    match readSlot argv count with
    | .error f => .error f
    | .ok none => .ok (count + 1, reads ++ [count])
    | .ok (some _) => countLoop argv fuel (count + 1) (reads ++ [count])

/-- The loop `for (size_t i = 0; i < count - 1; ++i) new_args[i] = argv[i];`.  `count` is at
least 1 here, so `count - 1` does not wrap. -/
def copyLoop (argv : ArgBlock) : Nat → Nat → ArgBuild → Except Fault ArgBuild
  | 0, i, b => if i < b.count - 1 then .error .outOfFuel else .ok b
  | fuel + 1, i, b =>
    if i < b.count - 1 then
      match readSlot argv i with
      | .error f => .error f
      | .ok p =>
        match writeSlot b.new_args i p with
        | .error f => .error f
        | .ok arr =>
          copyLoop argv fuel (i + 1)
            { b with new_args := arr, reads := b.reads ++ [i], writes := b.writes ++ [i] }
    else .ok b

/-- Lines 31 to 38 of `profile_saver.h`: count the arguments, allocate `count + 1`
null slots, copy, append the flag and the terminator.  `count` never exceeds the number of
slots of `argv`, so the `size_t` arithmetic does not wrap and is done in `Nat`. -/
def buildArgs (argv : ArgBlock) : Except Fault ArgBuild :=
  match countLoop argv (argv.length + 1) 0 [] with
  | .error f => .error f
  | .ok (count, reads) =>
    let b0 : ArgBuild :=
      { count := count, slots := count + 1, new_args := List.replicate (count + 1) none,
        reads := reads, writes := [] }
    match copyLoop argv count 0 b0 with
    | .error f => .error f
    | .ok b1 =>
      match writeSlot b1.new_args (count - 1) (some inlineFlag) with
      | .error f => .error f
      | .ok arr1 =>
        match writeSlot arr1 count none with
        | .error f => .error f
        | .ok arr2 =>
          .ok { b1 with new_args := arr2, writes := b1.writes ++ [count - 1, count] }

/-- The replacement of the `execve` stub.  `backup` is the saved original. -/
def execve {W : Type} (backup : CStr → ArgBlock → Ptr → W → Int × W)
    (pathname : Option CStr) (argv : ArgBlock) (envp : Ptr) (s : State W) :
    Except Fault (Int × State W) :=
  match pathname with
  | none => .error .nullPointer
  | some path =>
    if (strstr path "dex2oat".toList).isSome then
      match buildArgs argv with
      | .error f => .error f
      | .ok b =>
        let s1 := s.emit (.LOGD "dex2oat by disable inline!" [])
        let r := backup path b.new_args envp s1.world
        .ok (r.1, { s1 with world := r.2 }.emit (.backupExecve path b.new_args envp r.1))
    else
      let r := backup path argv envp s.world
      .ok (r.1, { s with world := r.2 }.emit (.backupExecve path argv envp r.1))

/-- The replacement of the `ProcessProfilingInfo(bool, uint16_t*)` stub. -/
def ProcessProfilingInfo {W : Type} (_backup : Ptr → Bool → Ptr → W → Bool × W)
    (_thiz : Ptr) (_a : Bool) (_p : Ptr) (s : State W) : Bool × State W :=
  (true, s.emit (.LOGD "skipped profile saving" []))

/-- The replacement of the `ProcessProfilingInfo(bool, bool, uint16_t*)` stub. -/
def ProcessProfilingInfoWithBool {W : Type} (_backup : Ptr → Bool → Bool → Ptr → W → Bool × W)
    (_thiz : Ptr) (_a _b : Bool) (_p : Ptr) (s : State W) : Bool × State W :=
  (true, s.emit (.LOGD "skipped profile saving" []))

/-- The symbols of the two profile-saving stubs, in the order `DisableInline` passes them. -/
def profileSaverSyms : List String :=
  ["_ZN3art12ProfileSaver20ProcessProfilingInfoEbPt",
   "_ZN3art12ProfileSaver20ProcessProfilingInfoEbbPt"]

/-- The function `art::DisableInline`. -/
def DisableInline {W : Type} (X : Externals W) (handler : HookHandler W) (s : State W) :
    State W :=
  let r1 := X.HookSyms handler profileSaverSyms s.world
  let s1 := { s with world := r1.2 }.emit (.HookSyms profileSaverSyms r1.1)
  let r2 := X.HookSymNoHandle handler X.execveAddress "execve" s1.world
  { s1 with world := r2.2 }.emit (.HookSymNoHandle "execve" X.execveAddress r2.1)

end art

/-! ## jni/bypass_sig.cpp -/

namespace lspd

/-- The replacement of the `__openat` stub.  `backup` is the saved original. -/
def __openat {W : Type} (backup : Int → CStr → Int → Int → W → Int × W)
    (fd : Int) (pathname : Option CStr) (flag mode : Int) (s : State W) :
    Except Fault (Int × State W) :=
  match pathname with
  | none => .error .nullPointer
  | some path =>
    if path = s.apkPath then
      let s1 := s.emit (.LOGD "redirect openat" [])
      let r := backup fd s.redirectPath flag mode s1.world
      .ok (r.1, { s1 with world := r.2 }.emit (.backupOpenat fd s.redirectPath flag mode r.1))
    else
      let r := backup fd path flag mode s.world
      .ok (r.1, { s with world := r.2 }.emit (.backupOpenat fd path flag mode r.1))

/-- Lines 30 and 31 of `bypass_sig.cpp`: look `__openat` up in libc and install the stub.
The result is `r`. -/
def enableOpenatHook.install {W : Type} (X : Externals W) (s : State W) : Bool × State W :=
  let a := X.ElfImgGetSymbAddress "libc.so" "__openat" s.world
  let s1 := { s with world := a.2 }.emit (.ElfImgGetSymbAddress "libc.so" "__openat" a.1)
  let r := X.HookSymNoHandle s1.handler a.1 "__openat" s1.world
  (r.1, { s1 with world := r.2 }.emit (.HookSymNoHandle "__openat" a.1 r.1))

/-- Lines 36 to 41 of `bypass_sig.cpp`: assign the two globals, then log them. -/
def enableOpenatHook.assign {W : Type} (str1 str2 : CStr) (s : State W) : State W :=
  let s1 := { s with apkPath := str1 }
  let s2 := { s1 with redirectPath := str2 }
  (s2.emit (.LOGD "apkPath %s" [s2.apkPath])).emit (.LOGD "redirectPath %s" [s2.redirectPath])

/-- The native method `SigBypass.enableOpenatHook`.  The two `jstring` arguments are
non-null Java strings, represented by the C strings `JUTFString::get` yields for them. -/
def enableOpenatHook {W : Type} (X : Externals W) (origApkPath cacheApkPath : CStr)
    (s : State W) : State W :=
  let r := enableOpenatHook.install X s
  if !r.1 then r.2.emit (.LOGE "Hook __openat fail")
  else enableOpenatHook.assign origApkPath cacheApkPath r.2

/-- The function `RegisterBypass`. -/
def RegisterBypass {W : Type} (X : Externals W) (s : State W) : State W :=
  { s with world := X.RegisterNatives "SigBypass" ["enableOpenatHook"] s.world }.emit
    (.RegisterNatives "SigBypass" ["enableOpenatHook"])

/-! ## patch_loader.cpp -/

/-- One JNI call, made directly on `env` or through a `JNI_*` helper: its result, and the
state with the call recorded. -/
def jniCall {W : Type} (X : Externals W) (c : JniCall) (s : State W) : Ptr × State W :=
  let r := X.jni c s.world
  (r.1, { s with world := r.2 }.emit (.jni c r.1))

/-- The destructor of a scoped local reference.  The helpers that yield an object or a
class (`JNI_FindClass`, `JNI_CallStaticObjectMethod`, `JNI_CallObjectMethod`,
`JNI_GetObjectField`, `JNI_NewObject`, `FindClassFromLoader`) return one, and leaving its
scope releases a non-null reference with `DeleteLocalRef`.  The helper library is not part
of the sources; the model takes this behaviour of its scoped reference type from it. -/
def releaseLocal {W : Type} (X : Externals W) (ref : Ptr) (s : State W) : State W :=
  if ref = nullptr then s else (jniCall X (.DeleteLocalRef ref) s).2

/-- Scope exit: the scoped locals are released one after the other, in the order given. -/
def releaseLocals {W : Type} (X : Externals W) (refs : List Ptr) (s : State W) : State W :=
  refs.foldl (fun st ref => releaseLocal X ref st) s

/-- The scoped locals of lines 38 to 52 of `patch_loader.cpp`, in order of declaration. -/
structure LoadDex.Locals where
  class_activity_thread : Ptr
  class_activity_thread_app_bind_data : Ptr
  class_loaded_apk : Ptr
  activity_thread : Ptr
  m_bound_application : Ptr
  info : Ptr
  stub_classloader : Ptr
  deriving DecidableEq, Repr

/-- The order in which the scoped locals of lines 38 to 52 are released when `LoadDex`
returns: the reverse of their declaration. -/
def LoadDex.Locals.released (l : LoadDex.Locals) : List Ptr :=
  [l.stub_classloader, l.info, l.m_bound_application, l.activity_thread, l.class_loaded_apk,
   l.class_activity_thread_app_bind_data, l.class_activity_thread]

/-- The locals of lines 59 to 64 of `patch_loader.cpp`; `dex_buffer` is a plain `jobject`, the
other three are scoped. -/
structure LoadDex.LoaderLocals where
  in_memory_classloader : Ptr
  byte_buffer_class : Ptr
  dex_buffer : Ptr
  my_cl : Ptr
  deriving DecidableEq, Repr

/-- Lines 38 to 52 of `patch_loader.cpp`: up to the value of `stub_classloader`. -/
def LoadDex.stubClassLoader {W : Type} (X : Externals W) (s : State W) :
    LoadDex.Locals × State W :=
  let class_activity_thread := jniCall X (.FindClass "android/app/ActivityThread") s
  let class_activity_thread_app_bind_data :=
    jniCall X (.FindClass "android/app/ActivityThread$AppBindData") class_activity_thread.2
  let class_loaded_apk :=
    jniCall X (.FindClass "android/app/LoadedApk") class_activity_thread_app_bind_data.2
  let mid_current_activity_thread :=
    jniCall X (.GetStaticMethodID class_activity_thread.1 "currentActivityThread"
      "()Landroid/app/ActivityThread;") class_loaded_apk.2
  let mid_get_classloader :=
    jniCall X (.GetMethodID class_loaded_apk.1 "getClassLoader" "()Ljava/lang/ClassLoader;")
      mid_current_activity_thread.2
  let fid_m_bound_application :=
    jniCall X (.GetFieldID class_activity_thread.1 "mBoundApplication"
      "Landroid/app/ActivityThread$AppBindData;") mid_get_classloader.2
  let fid_info :=
    jniCall X (.GetFieldID class_activity_thread_app_bind_data.1 "info"
      "Landroid/app/LoadedApk;") fid_m_bound_application.2
  let activity_thread :=
    jniCall X (.CallStaticObjectMethod class_activity_thread.1 mid_current_activity_thread.1)
      fid_info.2
  let m_bound_application :=
    jniCall X (.GetObjectField activity_thread.1 fid_m_bound_application.1) activity_thread.2
  let info := jniCall X (.GetObjectField m_bound_application.1 fid_info.1) m_bound_application.2
  let stub_classloader := jniCall X (.CallObjectMethod info.1 mid_get_classloader.1) info.2
  ({ class_activity_thread := class_activity_thread.1
     class_activity_thread_app_bind_data := class_activity_thread_app_bind_data.1
     class_loaded_apk := class_loaded_apk.1
     activity_thread := activity_thread.1
     m_bound_application := m_bound_application.1
     info := info.1
     stub_classloader := stub_classloader.1 }, stub_classloader.2)

/-- Lines 59 to 64 of `patch_loader.cpp`: up to the value of `my_cl`. -/
def LoadDex.newClassLoader {W : Type} (X : Externals W) (dex : PreloadedDex)
    (stub_classloader : Ptr) (s : State W) : LoadDex.LoaderLocals × State W :=
  let in_memory_classloader :=
    jniCall X (.FindClass "dalvik/system/InMemoryDexClassLoader") s
  let mid_init :=
    jniCall X (.GetMethodID in_memory_classloader.1 "<init>"
      "(Ljava/nio/ByteBuffer;Ljava/lang/ClassLoader;)V") in_memory_classloader.2
  let byte_buffer_class := jniCall X (.FindClass "java/nio/ByteBuffer") mid_init.2
  let dex_buffer := jniCall X (.NewDirectByteBuffer dex.data dex.size) byte_buffer_class.2
  let my_cl :=
    jniCall X (.NewObject in_memory_classloader.1 mid_init.1 [dex_buffer.1, stub_classloader])
      dex_buffer.2
  ({ in_memory_classloader := in_memory_classloader.1
     byte_buffer_class := byte_buffer_class.1
     dex_buffer := dex_buffer.1
     my_cl := my_cl.1 }, my_cl.2)

/-- The method `PatchLoader::LoadDex`.  It returns nothing.  On each of its three ways out the
scoped locals alive there are released: `my_cl` where the `if` statement ends, the others in
reverse order of declaration where the function returns. -/
def LoadDex {W : Type} (X : Externals W) (dex : PreloadedDex) (s : State W) : State W :=
  let a := LoadDex.stubClassLoader X s
  if a.1.stub_classloader = nullptr then
    releaseLocals X a.1.released (a.2.emit (.LOGE "getStubClassLoader failed!!!"))
  else
    let r := LoadDex.newClassLoader X dex a.1.stub_classloader a.2
    if r.1.my_cl ≠ nullptr then
      let g := jniCall X (.NewGlobalRef r.1.my_cl) r.2
      let s1 := releaseLocal X r.1.my_cl { g.2 with inject_class_loader_ := g.1 }
      let s2 := (jniCall X (.DeleteLocalRef r.1.dex_buffer) s1).2
      releaseLocals X (r.1.byte_buffer_class :: r.1.in_memory_classloader :: a.1.released) s2
    else
      releaseLocals X
        (r.1.my_cl :: r.1.byte_buffer_class :: r.1.in_memory_classloader :: a.1.released)
        (r.2.emit (.LOGE "InMemoryDexClassLoader creation failed!!!"))

/-- The method `PatchLoader::InitHooks`. -/
def InitHooks {W : Type} (X : Externals W) (initInfo : InitInfo W) (s : State W) : State W :=
  let s1 := { s with handler := some initInfo }
  let s2 := { s1 with world := X.ContextInitHooks s1.handler s1.world }.emit .ContextInitHooks
  let s3 := art.DisableInline X s2.handler s2
  let s4 :=
    { s3 with world := X.DisableBackgroundVerification s3.handler s3.world }.emit
      .DisableBackgroundVerification
  RegisterBypass X s4

/-- The class `SetupEntryClass` looks up. -/
def entryClassName : String := "org.lsposed.lspatch.loader.LSPApplication"

/-- The method `PatchLoader::SetupEntryClass`.  The scoped local `entry_class` is released
where the `if` statement ends. -/
def SetupEntryClass {W : Type} (X : Externals W) (s : State W) : State W :=
  let loader := X.GetCurrentClassLoader s.inject_class_loader_
  let entry_class := X.FindClassFromLoader loader entryClassName s.world
  let s1 :=
    { s with world := entry_class.2 }.emit
      (.FindClassFromLoader loader entryClassName entry_class.1)
  if entry_class.1 ≠ nullptr then
    let g := jniCall X (.NewGlobalRef entry_class.1) s1
    releaseLocal X entry_class.1 { g.2 with entry_class_ := g.1 }
  else s1

/-- The lambda `Load` stores in `initInfo.inline_hooker`. -/
def Load.inline_hooker {W : Type} (X : Externals W) (t r : Ptr) (w : W) : Ptr × W :=
  let bk : Ptr := nullptr
  let h := X.HookFunction t r bk w
  (if h.1.1 = X.RS_SUCCESS then h.1.2 else nullptr, h.2)

/-- The lambda `Load` stores in `initInfo.inline_unhooker`. -/
def Load.inline_unhooker {W : Type} (X : Externals W) (t : Ptr) (w : W) : Bool × W :=
  let u := X.UnhookFunction t w
  (decide (u.1 = X.RT_SUCCESS), u.2)

/-- The bundle `initInfo` that `Load` builds. -/
def Load.initInfo {W : Type} (X : Externals W) : InitInfo W :=
  { inline_hooker := Load.inline_hooker X
    inline_unhooker := Load.inline_unhooker X
    art_symbol_resolver := X.getSymbAddress
    art_symbol_prefix_resolver := X.getSymbPrefixFirstOffset }

/-- Lines 107 to 111 of `patch_loader.cpp`: the scoped local `stub` and the value of `dex`. -/
def Load.preloadedDex {W : Type} (X : Externals W) (s : State W) :
    (Ptr × PreloadedDex) × State W :=
  let stub :=
    jniCall X (.FindClass "org/lsposed/lspatch/appstub/LSPAppComponentFactoryStub") s
  let dex_field := jniCall X (.GetStaticFieldID stub.1 "dex" "[B") stub.2
  let array := jniCall X (.GetStaticObjectField stub.1 dex_field.1) dex_field.2
  let elements := jniCall X (.GetByteArrayElements array.1) array.2
  let length := jniCall X (.GetArrayLength array.1) elements.2
  ((stub.1, { data := elements.1, size := length.1 }), length.2)

/-- The call `FindAndCall(env, name, sig)` on the current `entry_class_`. -/
def FindAndCall {W : Type} (X : Externals W) (name sig : String) (s : State W) : State W :=
  { s with world := X.FindAndCall s.entry_class_ name sig s.world }.emit (.FindAndCall name sig)

/-- The method `PatchLoader::Load`.  The scoped local `stub` is released where it returns. -/
def Load {W : Type} (X : Externals W) (s : State W) : State W :=
  let s0 := { s with world := X.InitSymbolCache s.world }.emit .InitSymbolCache
  let initInfo := Load.initInfo X
  let dex := Load.preloadedDex X s0
  let s1 := LoadDex X dex.1.2 dex.2
  let s2 := InitHooks X initInfo s1
  let s3 := SetupEntryClass X s2
  let s4 := FindAndCall X "onLoad" "()V" s3
  releaseLocal X dex.1.1 s4

end lspd

/-! ## Sequences of calls, failure of `LoadDex`, and a test double -/

namespace lspd

/-- A sequence of `enableOpenatHook` calls, oldest first, each with its two arguments. -/
def configure {W : Type} (X : Externals W) (calls : List (CStr × CStr)) (s : State W) :
    State W :=
  calls.foldl (fun st c => enableOpenatHook X c.1 c.2 st) s

/-- The two conditions under which `LoadDex` logs an error and returns early: the parent
class loader is null, or `InMemoryDexClassLoader` could not be created from the buffer. -/
def LoadDexFails {W : Type} (X : Externals W) (dex : PreloadedDex) (s : State W) : Prop :=
  (LoadDex.stubClassLoader X s).1.stub_classloader = nullptr ∨
  (LoadDex.newClassLoader X dex (LoadDex.stubClassLoader X s).1.stub_classloader
    (LoadDex.stubClassLoader X s).2).1.my_cl = nullptr

/-- The state in which `Load` calls `LoadDex`, with the local `stub` and the buffer it
passes. -/
def Load.beforeLoadDex {W : Type} (X : Externals W) (s : State W) :
    (Ptr × PreloadedDex) × State W :=
  Load.preloadedDex X ({ s with world := X.InitSymbolCache s.world }.emit .InitSymbolCache)

end lspd

/-- A test double over the one-point world.  `HookFunction` reports status `0` and writes
`t + 1` when `hookOk`, and reports `1` and writes nothing otherwise; the hook helpers answer
`hookOk`; symbol lookups yield address `64`; JNI calls yield `jniResult`. -/
def fakeExternals (hookOk : Bool) (jniResult : JniCall → Ptr) : Externals Unit :=
  { RS_SUCCESS := 0
    RT_SUCCESS := 0
    HookFunction := fun t _ bk w => (if hookOk then (0, t + 1) else (1, bk), w)
    UnhookFunction := fun _ w => (if hookOk then 0 else 1, w)
    getSymbAddress := fun _ w => (64, w)
    getSymbPrefixFirstOffset := fun _ w => (64, w)
    InitSymbolCache := fun w => w
    jni := fun c w => (jniResult c, w)
    ContextInitHooks := fun _ w => w
    HookSyms := fun _ _ w => (hookOk, w)
    HookSymNoHandle := fun _ _ _ w => (hookOk, w)
    ElfImgGetSymbAddress := fun _ _ w => (64, w)
    DisableBackgroundVerification := fun _ w => w
    RegisterNatives := fun _ _ w => w
    GetCurrentClassLoader := fun p => p
    FindClassFromLoader := fun loader _ w => (loader, w)
    FindAndCall := fun _ _ _ w => w
    execveAddress := 128 }

/-- A JVM in which `LoadedApk.getClassLoader` returns null and every other call succeeds. -/
def noParentLoader : JniCall → Ptr
  | .CallObjectMethod _ _ => nullptr
  | _ => 1

/-- A JVM in which `InMemoryDexClassLoader` rejects the buffer and every other call succeeds. -/
def rejectsBuffer : JniCall → Ptr
  | .NewObject _ _ _ => nullptr
  | _ => 1

/-- A JVM in which every call succeeds. -/
def healthyJvm : JniCall → Ptr := fun _ => 1

/-! ## Lemmas -/

theorem strstr_isSome_iff_sublist (haystack needle : CStr) :
    (strstr haystack needle).isSome ↔ needle <:+: haystack := by
  induction haystack with
  | nil =>
    cases needle <;> simp [strstr]
  | cons c rest ih =>
    rw [List.infix_cons_iff]
    unfold strstr
    by_cases hp : needle.isPrefixOf (c :: rest) = true
    · rw [if_pos hp]
      simp [List.isPrefixOf_iff_prefix.mp hp]
    · rw [if_neg hp]
      have hnp : ¬ needle <+: c :: rest := fun h => hp (List.isPrefixOf_iff_prefix.mpr h)
      simp [hnp, ← ih]

theorem strstr_isSome_iff (haystack needle : CStr) :
    (strstr haystack needle).isSome ↔ ∃ pre post, haystack = pre ++ needle ++ post := by
  rw [strstr_isSome_iff_sublist]
  constructor
  · rintro ⟨pre, post, h⟩
    exact ⟨pre, post, h.symm⟩
  · rintro ⟨pre, post, h⟩
    exact ⟨pre, post, h.symm⟩

namespace art

theorem readSlot_at (pre : ArgBlock) (x : Option CStr) (rest : ArgBlock) :
    readSlot (pre ++ x :: rest) pre.length = .ok x := by
  have h : (pre ++ x :: rest)[pre.length]? = some x := by
    rw [List.getElem?_append_right (Nat.le_refl _)]
    simp
  simp only [readSlot, h]

theorem countLoop_terminates (args : List CStr) (rest : ArgBlock) :
    ∀ (fuel : Nat) (reads : List Nat) (pre : ArgBlock), args.length < fuel →
      countLoop (pre ++ (args.map some ++ none :: rest)) fuel pre.length reads =
        .ok (pre.length + args.length + 1,
          reads ++ List.range' pre.length (args.length + 1)) := by
  induction args with
  | nil =>
    intro fuel reads pre hf
    cases fuel with
    | zero => exact absurd hf (by simp)
    | succ f =>
      simp only [List.map_nil, List.nil_append, countLoop, readSlot_at]
      simp
  | cons a as ih =>
    intro fuel reads pre hf
    cases fuel with
    | zero => exact absurd hf (by simp)
    | succ f =>
      simp only [List.map_cons, List.cons_append, countLoop, readSlot_at]
      have h := ih f (reads ++ [pre.length]) (pre ++ [some a])
        (by simp only [List.length_cons] at hf; omega)
      simp only [List.length_append, List.length_singleton, List.append_assoc,
        List.singleton_append] at h
      rw [h]
      simp [List.range'_succ]
      omega

theorem copy_step {α : Type} (l A : List α) (i k : Nat) (hin : i < l.length)
    (hia : i < A.length) :
    List.take (i + 1) (l.set i A[i]) ++ List.take k (List.drop (i + 1) A) ++
        List.drop (i + 1 + k) (l.set i A[i]) =
      List.take i l ++ List.take (k + 1) (List.drop i A) ++ List.drop (i + (k + 1)) l := by
  have h1 : List.take (i + 1) (l.set i A[i]) = List.take i l ++ [A[i]] := by
    rw [List.take_succ, List.set_take, List.set_eq_of_length_le (by simp)]
    simp [hin]
  have h2 : List.drop (i + 1 + k) (l.set i A[i]) = List.drop (i + (k + 1)) l := by
    rw [List.drop_set_of_lt _ _ (by omega)]
    congr 1
    omega
  rw [h1, h2, List.drop_eq_getElem_cons hia, List.take_succ_cons]
  simp

theorem readSlot_lt (argv : ArgBlock) (i : Nat) (h : i < argv.length) :
    readSlot argv i = .ok argv[i] := by
  simp only [readSlot, List.getElem?_eq_getElem h]

theorem copyLoop_spec (argv : ArgBlock) :
    ∀ (k fuel i : Nat) (b : ArgBuild), i + k = b.count - 1 → k ≤ fuel →
      b.count - 1 ≤ argv.length → b.count - 1 ≤ b.new_args.length →
      copyLoop argv fuel i b =
        .ok { b with
              new_args := b.new_args.take i ++ (argv.drop i).take k ++ b.new_args.drop (i + k),
              reads := b.reads ++ List.range' i k,
              writes := b.writes ++ List.range' i k } := by
  intro k
  induction k with
  | zero =>
    intro fuel i b hik _ _ _
    have hi : ¬ i < b.count - 1 := by omega
    cases fuel <;> simp [copyLoop, hi]
  | succ k ih =>
    intro fuel i b hik hf ha hn
    have hi : i < b.count - 1 := by omega
    cases fuel with
    | zero => omega
    | succ f =>
      have hia : i < argv.length := by omega
      have hin : i < b.new_args.length := by omega
      simp only [copyLoop, if_pos hi, readSlot_lt argv i hia, writeSlot, if_pos hin]
      rw [ih f (i + 1) _ (by simp only; omega) (by omega) (by simpa using ha)
        (by simpa using hn)]
      simp only [Except.ok.injEq, ArgBuild.mk.injEq, true_and]
      refine ⟨?_, ?_, ?_⟩
      · exact copy_step b.new_args argv i k hin hia
      · simp [List.range'_succ]
      · simp [List.range'_succ]

/-- The argument block `buildArgs` produces for a null-terminated `argv`. -/
theorem buildArgs_spec (args : List CStr) (rest : ArgBlock) :
    buildArgs (args.map some ++ none :: rest) =
      .ok { count := args.length + 1, slots := args.length + 2,
            new_args := args.map some ++ [some inlineFlag, none],
            reads := List.range' 0 (args.length + 1) ++ List.range' 0 args.length,
            writes := List.range' 0 args.length ++ [args.length, args.length + 1] } := by
  have hc := countLoop_terminates args rest ((args.map some ++ none :: rest).length + 1) [] []
    (by simp; omega)
  simp only [List.nil_append, List.length_nil, Nat.zero_add] at hc
  unfold buildArgs
  rw [hc]
  simp only
  rw [copyLoop_spec _ args.length (args.length + 1) 0 _ (by simp) (by omega) (by simp)
    (by simp only [List.length_replicate]; omega)]
  simp only [writeSlot]
  have hl : (List.map some args ++ none :: rest).take args.length = List.map some args :=
    List.take_left' (by simp)
  have hd : List.drop args.length (List.replicate (args.length + 1 + 1) (none : Option CStr)) =
      [none, none] := by
    rw [List.drop_replicate, show args.length + 1 + 1 - args.length = 2 by omega]
    rfl
  simp only [List.take_zero, List.drop_zero, Nat.zero_add, hl, hd, List.nil_append,
    Nat.add_sub_cancel]
  simp [List.set_append]

/-! ## The hook replacements -/

/-- C1: for every non-null pathname, every envp and every null-terminated argv with the
non-null entries `args`, the `execve` replacement calls the backup exactly once, with the same
pathname and envp, and returns its result.  When the pathname contains `dex2oat` the block
it passes is `args` in order, then `--inline-max-code-units=0`, then the null terminator;
otherwise it passes the original argv unchanged. -/
theorem execve_delegates_once {W : Type} (backup : CStr → ArgBlock → Ptr → W → Int × W)
    (pathname : CStr) (args : List CStr) (rest : ArgBlock) (envp : Ptr) (s : State W) :
    ((∃ pre post, pathname = pre ++ "dex2oat".toList ++ post) →
      execve backup (some pathname) (args.map some ++ none :: rest) envp s =
        .ok ((backup pathname (args.map some ++ [some inlineFlag, none]) envp s.world).1,
          { s with
            world := (backup pathname (args.map some ++ [some inlineFlag, none]) envp s.world).2
            trace := s.trace ++
              [.LOGD "dex2oat by disable inline!" [],
               .backupExecve pathname (args.map some ++ [some inlineFlag, none]) envp
                 (backup pathname (args.map some ++ [some inlineFlag, none]) envp s.world).1] }))
    ∧
    ((¬ ∃ pre post, pathname = pre ++ "dex2oat".toList ++ post) →
      execve backup (some pathname) (args.map some ++ none :: rest) envp s =
        .ok ((backup pathname (args.map some ++ none :: rest) envp s.world).1,
          { s with
            world := (backup pathname (args.map some ++ none :: rest) envp s.world).2
            trace := s.trace ++
              [.backupExecve pathname (args.map some ++ none :: rest) envp
                 (backup pathname (args.map some ++ none :: rest) envp s.world).1] })) := by
  constructor
  · intro h
    have hs : (strstr pathname "dex2oat".toList).isSome = true :=
      (strstr_isSome_iff _ _).mpr h
    simp only [execve, hs, if_true, buildArgs_spec, State.emit, List.append_assoc,
      List.singleton_append]
  · intro h
    have hs : ¬ (strstr pathname "dex2oat".toList).isSome = true :=
      fun hh => h ((strstr_isSome_iff _ _).mp hh)
    simp only [execve, hs, State.emit]
    rfl

/-- Witness of C1 at `["dex2oat", "--flag1"]`: delegated with the flag appended for the
program `dex2oat`, unchanged for the program `ls`. -/
theorem execve_delegates_once_witness :
    execve (fun _ _ _ (w : Unit) => ((0 : Int), w)) (some "dex2oat".toList)
        [some "dex2oat".toList, some "--flag1".toList, none] 7 (State.initial ()) =
      .ok (0,
        { State.initial () with
          trace :=
            [.LOGD "dex2oat by disable inline!" [],
             .backupExecve "dex2oat".toList
               [some "dex2oat".toList, some "--flag1".toList,
                some "--inline-max-code-units=0".toList, none] 7 0] })
    ∧
    execve (fun _ _ _ (w : Unit) => ((0 : Int), w)) (some "ls".toList)
        [some "dex2oat".toList, some "--flag1".toList, none] 7 (State.initial ()) =
      .ok (0,
        { State.initial () with
          trace :=
            [.backupExecve "ls".toList
               [some "dex2oat".toList, some "--flag1".toList, none] 7 0] }) :=
  ⟨(execve_delegates_once (fun _ _ _ (w : Unit) => ((0 : Int), w)) "dex2oat".toList
      ["dex2oat".toList, "--flag1".toList] [] 7 (State.initial ())).1 ⟨[], [], rfl⟩,
   (execve_delegates_once (fun _ _ _ (w : Unit) => ((0 : Int), w)) "ls".toList
      ["dex2oat".toList, "--flag1".toList] [] 7 (State.initial ())).2
      (fun h => absurd ((strstr_isSome_iff _ _).mpr h) (by decide))⟩

/-- C3: for every argument tuple both profile-saving replacements return `true`; the result
does not depend on the backup, the world is untouched and the only event is the log line, so
the backup is never called. -/
theorem ProcessProfilingInfo_neutralized {W : Type}
    (backup1 : Ptr → Bool → Ptr → W → Bool × W)
    (backup2 : Ptr → Bool → Bool → Ptr → W → Bool × W)
    (thiz : Ptr) (a b : Bool) (p : Ptr) (s : State W) :
    ProcessProfilingInfo backup1 thiz a p s =
        (true, { s with trace := s.trace ++ [.LOGD "skipped profile saving" []] })
    ∧ ProcessProfilingInfoWithBool backup2 thiz a b p s =
        (true, { s with trace := s.trace ++ [.LOGD "skipped profile saving" []] }) :=
  ⟨rfl, rfl⟩

/-- C8: in the `dex2oat` branch, for a null-terminated argv with the `n` non-null entries
`args`, the counting loop terminates with `count = n + 1`, no read of argv is past index `n`,
`count + 1 = n + 2` slots are allocated and every write (indices `0` to `n + 1`) lies inside
them; the new block is `args`, the flag, null.  For `n = 0` it is the flag and null. -/
theorem execve_buildArgs_in_bounds (args : List CStr) (rest : ArgBlock) :
    countLoop (args.map some ++ none :: rest) ((args.map some ++ none :: rest).length + 1) 0 [] =
        .ok (args.length + 1, List.range (args.length + 1))
    ∧ (∃ b, buildArgs (args.map some ++ none :: rest) = .ok b
        ∧ b.count = args.length + 1
        ∧ b.slots = b.count + 1
        ∧ b.new_args.length = b.slots
        ∧ (∀ i ∈ b.reads, i ≤ args.length)
        ∧ b.writes = List.range (args.length + 2)
        ∧ (∀ i ∈ b.writes, i < b.slots)
        ∧ b.new_args = args.map some ++ [some inlineFlag, none])
    ∧ (∃ b, buildArgs (none :: rest) = .ok b ∧ b.new_args = [some inlineFlag, none]) := by
  refine ⟨?_, ?_, ?_⟩
  · have hc := countLoop_terminates args rest ((args.map some ++ none :: rest).length + 1) []
      [] (by simp; omega)
    simpa [List.range_eq_range'] using hc
  · refine ⟨_, buildArgs_spec args rest, rfl, rfl, by simp, ?_, ?_, ?_, rfl⟩
    · intro i hi
      simp only [List.mem_append, List.mem_range'_1] at hi
      omega
    · simp only [List.range_eq_range']
      rw [show args.length + 2 = args.length + 1 + 1 by omega, List.range'_concat,
        List.range'_concat]
      simp
    · intro i hi
      simp only [List.mem_append, List.mem_range'_1, List.mem_cons, List.mem_singleton,
        List.not_mem_nil, or_false] at hi
      show i < args.length + 2
      omega
  · exact ⟨_, buildArgs_spec [] rest, rfl⟩

end art

namespace lspd

/-- C2: for every `apkPath`, `redirectPath` and every call with a non-null pathname, the
`__openat` replacement calls the backup exactly once with `fd`, `flag` and `mode` unchanged
and returns its result; the path it passes is `redirectPath` when the pathname equals
`apkPath` and the pathname itself otherwise. -/
theorem openat_redirects_configured_path {W : Type}
    (backup : Int → CStr → Int → Int → W → Int × W)
    (fd : Int) (pathname : CStr) (flag mode : Int) (s : State W) :
    ∃ log : List Event,
      log = (if pathname = s.apkPath then [Event.LOGD "redirect openat" []] else []) ∧
      __openat backup fd (some pathname) flag mode s =
        .ok ((backup fd (if pathname = s.apkPath then s.redirectPath else pathname)
                flag mode s.world).1,
          { s with
            world := (backup fd (if pathname = s.apkPath then s.redirectPath else pathname)
                flag mode s.world).2
            trace := s.trace ++ log ++
              [.backupOpenat fd (if pathname = s.apkPath then s.redirectPath else pathname)
                flag mode
                (backup fd (if pathname = s.apkPath then s.redirectPath else pathname)
                  flag mode s.world).1] }) := by
  by_cases h : pathname = s.apkPath
  · refine ⟨_, rfl, ?_⟩
    simp only [__openat, h, if_true, State.emit, List.append_assoc]
  · refine ⟨_, rfl, ?_⟩
    simp only [__openat, h, if_false, State.emit, List.append_nil]

/-! ## Catalog and capabilities -/

theorem DisableInline_eq {W : Type} (X : Externals W) (handler : HookHandler W) (st : State W)
    (outcome : Bool) (w1 : W) (r : Bool) (w2 : W)
    (hsyms : X.HookSyms handler art.profileSaverSyms st.world = (outcome, w1))
    (hexecve : X.HookSymNoHandle handler X.execveAddress "execve" w1 = (r, w2)) :
    art.DisableInline X handler st =
      { st with
        world := w2
        trace := st.trace ++
          [.HookSyms art.profileSaverSyms outcome,
           .HookSymNoHandle "execve" X.execveAddress r] } := by
  simp [art.DisableInline, State.emit, hsyms, hexecve]

theorem InitHooks_eq {W : Type} (X : Externals W) (initInfo : InitInfo W) (s : State W)
    (outcome : Bool) (w1 : W) (r : Bool) (w2 : W)
    (hsyms : X.HookSyms (some initInfo) art.profileSaverSyms
      (X.ContextInitHooks (some initInfo) s.world) = (outcome, w1))
    (hexecve : X.HookSymNoHandle (some initInfo) X.execveAddress "execve" w1 = (r, w2)) :
    InitHooks X initInfo s =
      { s with
        handler := some initInfo
        world := X.RegisterNatives "SigBypass" ["enableOpenatHook"]
          (X.DisableBackgroundVerification (some initInfo) w2)
        trace := s.trace ++
          [.ContextInitHooks, .HookSyms art.profileSaverSyms outcome,
           .HookSymNoHandle "execve" X.execveAddress r, .DisableBackgroundVerification,
           .RegisterNatives "SigBypass" ["enableOpenatHook"]] } := by
  simp [InitHooks, RegisterBypass, art.DisableInline, State.emit, hsyms, hexecve]

/-- C6: whatever `HookSyms` answers for the two `ProcessProfilingInfo` entries (`outcome`) and
whatever world it leaves (`w1`), `DisableInline` goes on to call `HookSymNoHandle` for `execve`
in that world, and `InitHooks` then applies `DisableBackgroundVerification` and
`RegisterBypass` to the world the `execve` install leaves; each call is in the trace, in this
order. -/
theorem catalog_entries_are_isolated {W : Type} (X : Externals W) (initInfo : InitInfo W)
    (s : State W) :
    (∀ (handler : HookHandler W) (st : State W) (outcome : Bool) (w1 : W) (r : Bool) (w2 : W),
      X.HookSyms handler art.profileSaverSyms st.world = (outcome, w1) →
      X.HookSymNoHandle handler X.execveAddress "execve" w1 = (r, w2) →
      art.DisableInline X handler st =
        { st with
          world := w2
          trace := st.trace ++
            [.HookSyms art.profileSaverSyms outcome,
             .HookSymNoHandle "execve" X.execveAddress r] })
    ∧ (∀ (outcome : Bool) (w1 : W) (r : Bool) (w2 : W),
      X.HookSyms (some initInfo) art.profileSaverSyms
          (X.ContextInitHooks (some initInfo) s.world) = (outcome, w1) →
      X.HookSymNoHandle (some initInfo) X.execveAddress "execve" w1 = (r, w2) →
      InitHooks X initInfo s =
        { s with
          handler := some initInfo
          world := X.RegisterNatives "SigBypass" ["enableOpenatHook"]
            (X.DisableBackgroundVerification (some initInfo) w2)
          trace := s.trace ++
            [.ContextInitHooks, .HookSyms art.profileSaverSyms outcome,
             .HookSymNoHandle "execve" X.execveAddress r, .DisableBackgroundVerification,
             .RegisterNatives "SigBypass" ["enableOpenatHook"]] }) :=
  ⟨fun handler st outcome w1 r w2 hsyms hexecve =>
      DisableInline_eq X handler st outcome w1 r w2 hsyms hexecve,
   fun outcome w1 r w2 hsyms hexecve => InitHooks_eq X initInfo s outcome w1 r w2 hsyms hexecve⟩

/-- Witness of C6: with a hook helper that refuses every install, `HookSyms` fails for the two
profile entries, and the `execve` install, `DisableBackgroundVerification` and
`RegisterBypass` still follow. -/
theorem catalog_entries_are_isolated_witness :
    InitHooks (fakeExternals false healthyJvm) (Load.initInfo (fakeExternals false healthyJvm))
        (State.initial ()) =
      { State.initial () with
        handler := some (Load.initInfo (fakeExternals false healthyJvm))
        trace :=
          [.ContextInitHooks, .HookSyms art.profileSaverSyms false,
           .HookSymNoHandle "execve" 128 false, .DisableBackgroundVerification,
           .RegisterNatives "SigBypass" ["enableOpenatHook"]] } :=
  (catalog_entries_are_isolated (fakeExternals false healthyJvm)
    (Load.initInfo (fakeExternals false healthyJvm)) (State.initial ())).2 false () false ()
    rfl rfl

/-- C7: the capabilities `Load` builds report the primitive faithfully.  `inline_hooker(t, r)`
returns the value `HookFunction` left in `bk` when it reports `RS_SUCCESS` and null when it
reports anything else; `inline_unhooker(t)` is true exactly when `UnhookFunction(t)` reports
`RT_SUCCESS`.  These are the capabilities `Load` hands to `InitHooks`. -/
theorem Load_capabilities_faithful {W : Type} (X : Externals W) (t r : Ptr) (w : W) :
    ((X.HookFunction t r nullptr w).1.1 = X.RS_SUCCESS →
        (Load.initInfo X).inline_hooker t r w =
          ((X.HookFunction t r nullptr w).1.2, (X.HookFunction t r nullptr w).2))
    ∧ ((X.HookFunction t r nullptr w).1.1 ≠ X.RS_SUCCESS →
        (Load.initInfo X).inline_hooker t r w = (nullptr, (X.HookFunction t r nullptr w).2))
    ∧ (((Load.initInfo X).inline_unhooker t w).1 = true ↔
        (X.UnhookFunction t w).1 = X.RT_SUCCESS)
    ∧ ((Load.initInfo X).inline_unhooker t w).2 = (X.UnhookFunction t w).2
    ∧ ∀ s : State W, Load X s =
        releaseLocal X (Load.beforeLoadDex X s).1.1
          (FindAndCall X "onLoad" "()V"
            (SetupEntryClass X
              (InitHooks X (Load.initInfo X)
                (LoadDex X (Load.beforeLoadDex X s).1.2 (Load.beforeLoadDex X s).2)))) := by
  refine ⟨?_, ?_, ?_, rfl, fun _ => rfl⟩
  · intro h
    simp [Load.initInfo, Load.inline_hooker, h]
  · intro h
    simp [Load.initInfo, Load.inline_hooker, h]
  · simp [Load.initInfo, Load.inline_unhooker]

/-- Witness of C7: an accepted install returns the backup the primitive wrote, a refused one
returns null. -/
theorem Load_capabilities_faithful_witness :
    (Load.initInfo (fakeExternals true healthyJvm)).inline_hooker 128 256 () = (129, ())
    ∧ (Load.initInfo (fakeExternals false healthyJvm)).inline_hooker 128 256 () = (nullptr, ()) :=
  ⟨(Load_capabilities_faithful (fakeExternals true healthyJvm) 128 256 ()).1 rfl,
   (Load_capabilities_faithful (fakeExternals false healthyJvm) 128 256 ()).2.1 (by decide)⟩

/-! ## Path redirection -/

theorem install_keeps_paths {W : Type} (X : Externals W) (s : State W) :
    (enableOpenatHook.install X s).2.apkPath = s.apkPath
    ∧ (enableOpenatHook.install X s).2.redirectPath = s.redirectPath :=
  ⟨rfl, rfl⟩

theorem enableOpenatHook_paths {W : Type} (X : Externals W) (a b : CStr) (s : State W) :
    ((enableOpenatHook.install X s).1 = true →
        (enableOpenatHook X a b s).apkPath = a ∧ (enableOpenatHook X a b s).redirectPath = b)
    ∧ ((enableOpenatHook.install X s).1 = false →
        (enableOpenatHook X a b s).apkPath = s.apkPath
        ∧ (enableOpenatHook X a b s).redirectPath = s.redirectPath) := by
  constructor
  · intro h
    simp [enableOpenatHook, h, enableOpenatHook.assign, State.emit]
  · intro h
    simp [enableOpenatHook, h, State.emit, install_keeps_paths]

/-- C10: if `HookSymNoHandle` returns false for `__openat`, `enableOpenatHook` returns with
`apkPath` and `redirectPath` as they were (after logging the failure); if it returns true,
`apkPath` is the first argument and `redirectPath` the second. -/
theorem enableOpenatHook_sets_paths_only_on_success {W : Type} (X : Externals W)
    (origApkPath cacheApkPath : CStr) (s : State W) :
    ((X.HookSymNoHandle s.handler (X.ElfImgGetSymbAddress "libc.so" "__openat" s.world).1
          "__openat" (X.ElfImgGetSymbAddress "libc.so" "__openat" s.world).2).1 = false →
        (enableOpenatHook X origApkPath cacheApkPath s).apkPath = s.apkPath
        ∧ (enableOpenatHook X origApkPath cacheApkPath s).redirectPath = s.redirectPath
        ∧ (enableOpenatHook X origApkPath cacheApkPath s).trace.getLast? =
            some (.LOGE "Hook __openat fail"))
    ∧ ((X.HookSymNoHandle s.handler (X.ElfImgGetSymbAddress "libc.so" "__openat" s.world).1
          "__openat" (X.ElfImgGetSymbAddress "libc.so" "__openat" s.world).2).1 = true →
        (enableOpenatHook X origApkPath cacheApkPath s).apkPath = origApkPath
        ∧ (enableOpenatHook X origApkPath cacheApkPath s).redirectPath = cacheApkPath) := by
  constructor
  · intro h
    have h1 : (enableOpenatHook.install X s).1 = false := h
    refine ⟨((enableOpenatHook_paths X _ _ s).2 h1).1, ((enableOpenatHook_paths X _ _ s).2 h1).2,
      ?_⟩
    simp [enableOpenatHook, h1, State.emit]
  · intro h
    exact (enableOpenatHook_paths X _ _ s).1 h

/-- Witness of C10: a refused install leaves the configured paths, an accepted one sets
them. -/
theorem enableOpenatHook_sets_paths_only_on_success_witness :
    (enableOpenatHook (fakeExternals false healthyJvm) "/a.apk".toList "/b.apk".toList
        { State.initial () with apkPath := "/x".toList, redirectPath := "/y".toList }).apkPath =
      "/x".toList
    ∧ (enableOpenatHook (fakeExternals true healthyJvm) "/a.apk".toList "/b.apk".toList
        { State.initial () with apkPath := "/x".toList, redirectPath := "/y".toList }).apkPath =
      "/a.apk".toList :=
  ⟨((enableOpenatHook_sets_paths_only_on_success (fakeExternals false healthyJvm)
      "/a.apk".toList "/b.apk".toList
      { State.initial () with apkPath := "/x".toList, redirectPath := "/y".toList }).1 rfl).1,
   ((enableOpenatHook_sets_paths_only_on_success (fakeExternals true healthyJvm)
      "/a.apk".toList "/b.apk".toList
      { State.initial () with apkPath := "/x".toList, redirectPath := "/y".toList }).2 rfl).1⟩

/-- C9: `enableOpenatHook` installs the `__openat` stub first and assigns the two paths
afterwards.  The state after lines 30 and 31 has the lookup and the install applied to the
world and recorded, and both paths still as they were, here empty; on success the function
continues from that state with the two assignments and the two log lines.  While both paths
are the empty string the replacement is transparent: for every non-null pathname (the empty
one included) it calls the backup once with a path equal to the pathname and with `fd`,
`flag` and `mode` unchanged, and returns its result. -/
theorem openat_transparent_before_paths_are_set {W : Type} (X : Externals W) (s : State W)
    (addr : Ptr) (w1 : W) (r : Bool) (w2 : W)
    (hapk : s.apkPath = []) (hredirect : s.redirectPath = [])
    (hlookup : X.ElfImgGetSymbAddress "libc.so" "__openat" s.world = (addr, w1))
    (hinstall : X.HookSymNoHandle s.handler addr "__openat" w1 = (r, w2)) :
    enableOpenatHook.install X s =
        (r, { s with
              world := w2
              trace := s.trace ++
                [.ElfImgGetSymbAddress "libc.so" "__openat" addr,
                 .HookSymNoHandle "__openat" addr r] })
    ∧ (enableOpenatHook.install X s).2.apkPath = []
    ∧ (enableOpenatHook.install X s).2.redirectPath = []
    ∧ (∀ (a b : CStr) (st : State W), enableOpenatHook.assign a b st =
        { st with
          apkPath := a
          redirectPath := b
          trace := st.trace ++ [.LOGD "apkPath %s" [a], .LOGD "redirectPath %s" [b]] })
    ∧ (∀ a b, r = true →
        enableOpenatHook X a b s = enableOpenatHook.assign a b (enableOpenatHook.install X s).2
        ∧ enableOpenatHook X a b s =
            { s with
              world := w2
              apkPath := a
              redirectPath := b
              trace := s.trace ++
                [.ElfImgGetSymbAddress "libc.so" "__openat" addr,
                 .HookSymNoHandle "__openat" addr true,
                 .LOGD "apkPath %s" [a], .LOGD "redirectPath %s" [b]] })
    ∧ (∀ (backup : Int → CStr → Int → Int → W → Int × W) (fd : Int) (pathname : CStr)
        (flag mode : Int),
        ∃ log, __openat backup fd (some pathname) flag mode (enableOpenatHook.install X s).2 =
          .ok ((backup fd pathname flag mode w2).1,
            { s with
              world := (backup fd pathname flag mode w2).2
              trace := s.trace ++
                [.ElfImgGetSymbAddress "libc.so" "__openat" addr,
                 .HookSymNoHandle "__openat" addr r] ++ log ++
                [.backupOpenat fd pathname flag mode (backup fd pathname flag mode w2).1] }))
    ∧ (∀ (backup : Int → CStr → Int → Int → W → Int × W) (fd : Int) (pathname : CStr)
        (flag mode : Int) (st : State W), st.apkPath = [] → st.redirectPath = [] →
        ∃ log, __openat backup fd (some pathname) flag mode st =
          .ok ((backup fd pathname flag mode st.world).1,
            { st with
              world := (backup fd pathname flag mode st.world).2
              trace := st.trace ++ log ++
                [.backupOpenat fd pathname flag mode
                  (backup fd pathname flag mode st.world).1] })) := by
  have hi : enableOpenatHook.install X s =
      (r, { s with
            world := w2
            trace := s.trace ++
              [.ElfImgGetSymbAddress "libc.so" "__openat" addr,
               .HookSymNoHandle "__openat" addr r] }) := by
    simp [enableOpenatHook.install, State.emit, hlookup, hinstall]
  have ht : ∀ (backup : Int → CStr → Int → Int → W → Int × W) (fd : Int) (pathname : CStr)
      (flag mode : Int) (st : State W), st.apkPath = [] → st.redirectPath = [] →
      ∃ log, __openat backup fd (some pathname) flag mode st =
        .ok ((backup fd pathname flag mode st.world).1,
          { st with
            world := (backup fd pathname flag mode st.world).2
            trace := st.trace ++ log ++
              [.backupOpenat fd pathname flag mode
                (backup fd pathname flag mode st.world).1] }) := by
    intro backup fd pathname flag mode st h1 h2
    by_cases hp : pathname = []
    · refine ⟨[.LOGD "redirect openat" []], ?_⟩
      simp only [__openat, h1, h2, hp, if_true, State.emit, List.append_assoc]
    · refine ⟨[], ?_⟩
      simp only [__openat, h1, hp, if_false, State.emit, List.append_nil]
  refine ⟨hi, ?_, ?_, fun a b st => ?_, fun a b hr => ⟨?_, ?_⟩, ?_, ht⟩
  · rw [hi]; exact hapk
  · rw [hi]; exact hredirect
  · simp [enableOpenatHook.assign, State.emit]
  · have h : (enableOpenatHook.install X s).1 = true := by rw [hi]; exact hr
    simp [enableOpenatHook, h]
  · have h : (enableOpenatHook.install X s).1 = true := by rw [hi]; exact hr
    simp only [enableOpenatHook, h, Bool.not_true, Bool.false_eq_true, if_false]
    rw [hi]
    simp [enableOpenatHook.assign, State.emit, hr]
  · intro backup fd pathname flag mode
    obtain ⟨log, hlog⟩ := ht backup fd pathname flag mode (enableOpenatHook.install X s).2
      (by rw [hi]; exact hapk) (by rw [hi]; exact hredirect)
    refine ⟨log, ?_⟩
    rw [hlog, hi]

/-- Witness of C9 at the initial state: after the install both paths are still empty, and
opening the empty pathname reaches the backup with the empty pathname. -/
theorem openat_transparent_before_paths_are_set_witness :
    (State.initial ()).apkPath = [] ∧ (State.initial ()).redirectPath = []
    ∧ enableOpenatHook.install (fakeExternals true healthyJvm) (State.initial ()) =
        (true, { State.initial () with
                 trace := [.ElfImgGetSymbAddress "libc.so" "__openat" 64,
                           .HookSymNoHandle "__openat" 64 true] })
    ∧ ∃ log, __openat (fun _ _ _ _ (w : Unit) => ((3 : Int), w)) 5 (some []) 0 0
        (State.initial ()) =
          .ok (3, { State.initial () with trace := [] ++ log ++ [.backupOpenat 5 [] 0 0 3] }) :=
  ⟨rfl, rfl,
   (openat_transparent_before_paths_are_set (fakeExternals true healthyJvm) (State.initial ())
      64 () true () rfl rfl rfl rfl).1,
   (openat_transparent_before_paths_are_set (fakeExternals true healthyJvm) (State.initial ())
      64 () true () rfl rfl rfl rfl).2.2.2.2.2.2 (fun _ _ _ _ (w : Unit) => ((3 : Int), w)) 5 []
      0 0 (State.initial ()) rfl rfl⟩

theorem configure_append {W : Type} (X : Externals W) (calls : List (CStr × CStr))
    (a b : CStr) (s : State W) :
    configure X (calls ++ [(a, b)]) s = enableOpenatHook X a b (configure X calls s) := by
  simp [configure, List.foldl_append]

/-- C5 as stated fails: with a hook helper that accepts every install, a second
`enableOpenatHook` call replaces both paths set by the first. -/
theorem second_configuration_overwrites_paths :
    (enableOpenatHook (fakeExternals true healthyJvm) "/data/app/base.apk".toList
        "/data/cache/patched.apk".toList (State.initial ())).apkPath =
      "/data/app/base.apk".toList
    ∧ (enableOpenatHook (fakeExternals true healthyJvm) "/data/app/base.apk".toList
        "/data/cache/patched.apk".toList (State.initial ())).redirectPath =
      "/data/cache/patched.apk".toList
    ∧ (configure (fakeExternals true healthyJvm)
        [("/data/app/other.apk".toList, "/data/cache/other.apk".toList)]
        (enableOpenatHook (fakeExternals true healthyJvm) "/data/app/base.apk".toList
          "/data/cache/patched.apk".toList (State.initial ()))).apkPath =
      "/data/app/other.apk".toList
    ∧ (configure (fakeExternals true healthyJvm)
        [("/data/app/other.apk".toList, "/data/cache/other.apk".toList)]
        (enableOpenatHook (fakeExternals true healthyJvm) "/data/app/base.apk".toList
          "/data/cache/patched.apk".toList (State.initial ()))).redirectPath =
      "/data/cache/other.apk".toList
    ∧ "/data/app/other.apk".toList ≠ "/data/app/base.apk".toList
    ∧ "/data/cache/other.apk".toList ≠ "/data/cache/patched.apk".toList :=
  ⟨rfl, rfl, rfl, rfl, by decide, by decide⟩

/-- C5, amended: after any sequence of `enableOpenatHook` calls, one more call assigns both
paths its arguments when its install succeeds and leaves both as they were when its install
fails; so the paths `__openat` reads are those of the most recent call whose install
succeeded. -/
theorem paths_follow_last_successful_configuration {W : Type} (X : Externals W)
    (calls : List (CStr × CStr)) (a b : CStr) (s : State W) :
    ((enableOpenatHook.install X (configure X calls s)).1 = true →
        (configure X (calls ++ [(a, b)]) s).apkPath = a
        ∧ (configure X (calls ++ [(a, b)]) s).redirectPath = b)
    ∧ ((enableOpenatHook.install X (configure X calls s)).1 = false →
        (configure X (calls ++ [(a, b)]) s).apkPath = (configure X calls s).apkPath
        ∧ (configure X (calls ++ [(a, b)]) s).redirectPath =
            (configure X calls s).redirectPath) := by
  rw [configure_append]
  exact enableOpenatHook_paths X a b (configure X calls s)

/-- Witness of amended C5: after one accepted call, a second accepted call sets the paths
to its own arguments. -/
theorem paths_follow_last_successful_configuration_witness :
    (configure (fakeExternals true healthyJvm)
        ([("/a.apk".toList, "/b.apk".toList)] ++ [("/c.apk".toList, "/d.apk".toList)])
        (State.initial ())).apkPath = "/c.apk".toList
    ∧ (configure (fakeExternals true healthyJvm)
        ([("/a.apk".toList, "/b.apk".toList)] ++ [("/c.apk".toList, "/d.apk".toList)])
        (State.initial ())).redirectPath = "/d.apk".toList :=
  (paths_follow_last_successful_configuration (fakeExternals true healthyJvm)
    [("/a.apk".toList, "/b.apk".toList)] "/c.apk".toList "/d.apk".toList
    (State.initial ())).1 rfl

/-! ## The attach sequence -/

theorem releaseLocal_eq {W : Type} (X : Externals W) (ref : Ptr) (st : State W) :
    releaseLocal X ref st =
      if ref = nullptr then st
      else { st with
             world := (X.jni (.DeleteLocalRef ref) st.world).2
             trace := st.trace ++
               [.jni (.DeleteLocalRef ref) (X.jni (.DeleteLocalRef ref) st.world).1] } := by
  by_cases h : ref = nullptr <;> simp [releaseLocal, h, jniCall, State.emit]

theorem releaseLocal_keeps_loader {W : Type} (X : Externals W) (ref : Ptr) (st : State W) :
    (releaseLocal X ref st).inject_class_loader_ = st.inject_class_loader_ := by
  by_cases h : ref = nullptr <;> simp [releaseLocal, h, jniCall, State.emit]

theorem releaseLocals_keeps_loader {W : Type} (X : Externals W) (refs : List Ptr) :
    ∀ st : State W, (releaseLocals X refs st).inject_class_loader_ = st.inject_class_loader_ := by
  induction refs with
  | nil => intro st; rfl
  | cons ref rest ih =>
    intro st
    have h := ih (releaseLocal X ref st)
    simp only [releaseLocals, List.foldl_cons] at h ⊢
    rw [h, releaseLocal_keeps_loader]

theorem LoadDex_failure_keeps_loader {W : Type} (X : Externals W) (dex : PreloadedDex)
    (st : State W) (h : LoadDexFails X dex st) :
    (LoadDex X dex st).inject_class_loader_ = st.inject_class_loader_ := by
  by_cases h1 : (LoadDex.stubClassLoader X st).1.stub_classloader = nullptr
  · simp only [LoadDex, h1, if_true, releaseLocals_keeps_loader]
    rfl
  · have h2 : (LoadDex.newClassLoader X dex (LoadDex.stubClassLoader X st).1.stub_classloader
        (LoadDex.stubClassLoader X st).2).1.my_cl = nullptr := by
      rcases h with h | h
      · exact absurd h h1
      · exact h
    simp only [LoadDex, h1, if_false, h2, ne_eq, not_true_eq_false, releaseLocals_keeps_loader]
    rfl

theorem SetupEntryClass_not_found {W : Type} (X : Externals W) (st : State W) (w3 : W)
    (hfind : X.FindClassFromLoader (X.GetCurrentClassLoader st.inject_class_loader_)
      entryClassName st.world = (nullptr, w3)) :
    SetupEntryClass X st =
      { st with
        world := w3
        trace := st.trace ++
          [.FindClassFromLoader (X.GetCurrentClassLoader st.inject_class_loader_)
            entryClassName nullptr] } := by
  simp [SetupEntryClass, hfind, State.emit]

theorem SetupEntryClass_found {W : Type} (X : Externals W) (st : State W) (cls : Ptr)
    (w3 : W) (g : Ptr) (w4 : W) (d : Ptr) (w5 : W) (hcls : cls ≠ nullptr)
    (hfind : X.FindClassFromLoader (X.GetCurrentClassLoader st.inject_class_loader_)
      entryClassName st.world = (cls, w3))
    (hglobal : X.jni (.NewGlobalRef cls) w3 = (g, w4))
    (hdelete : X.jni (.DeleteLocalRef cls) w4 = (d, w5)) :
    SetupEntryClass X st =
      { st with
        world := w5
        entry_class_ := g
        trace := st.trace ++
          [.FindClassFromLoader (X.GetCurrentClassLoader st.inject_class_loader_)
            entryClassName cls,
           .jni (.NewGlobalRef cls) g, .jni (.DeleteLocalRef cls) d] } := by
  simp [SetupEntryClass, hfind, hcls, State.emit, jniCall, releaseLocal, hglobal, hdelete]

theorem Load_unfold {W : Type} (X : Externals W) (s : State W) (stub : Ptr)
    (dex : PreloadedDex) (st0 : State W)
    (hbefore : Load.beforeLoadDex X s = ((stub, dex), st0)) :
    Load X s =
      releaseLocal X stub
        (FindAndCall X "onLoad" "()V"
          (SetupEntryClass X (InitHooks X (Load.initInfo X) (LoadDex X dex st0)))) := by
  have h : Load X s =
      releaseLocal X (Load.beforeLoadDex X s).1.1
        (FindAndCall X "onLoad" "()V"
          (SetupEntryClass X
            (InitHooks X (Load.initInfo X)
              (LoadDex X (Load.beforeLoadDex X s).1.2 (Load.beforeLoadDex X s).2)))) := rfl
  rw [h, hbefore]

/-- C4 as stated fails: in a JVM where the parent class loader is null, and in one where
`InMemoryDexClassLoader` rejects the buffer, `LoadDex` fails, logs it and releases its locals,
and `Load` still runs `InitHooks`, `SetupEntryClass` and the `onLoad` call. -/
theorem Load_continues_after_LoadDex_failure :
    LoadDexFails (fakeExternals true noParentLoader)
        (Load.beforeLoadDex (fakeExternals true noParentLoader) (State.initial ())).1.2
        (Load.beforeLoadDex (fakeExternals true noParentLoader) (State.initial ())).2
    ∧ (Load (fakeExternals true noParentLoader) (State.initial ())).trace.drop 17 =
        [.LOGE "getStubClassLoader failed!!!",
         .jni (.DeleteLocalRef 1) 1, .jni (.DeleteLocalRef 1) 1, .jni (.DeleteLocalRef 1) 1,
         .jni (.DeleteLocalRef 1) 1, .jni (.DeleteLocalRef 1) 1, .jni (.DeleteLocalRef 1) 1,
         .ContextInitHooks,
         .HookSyms art.profileSaverSyms true, .HookSymNoHandle "execve" 128 true,
         .DisableBackgroundVerification, .RegisterNatives "SigBypass" ["enableOpenatHook"],
         .FindClassFromLoader 0 entryClassName 0, .FindAndCall "onLoad" "()V",
         .jni (.DeleteLocalRef 1) 1]
    ∧ LoadDexFails (fakeExternals true rejectsBuffer)
        (Load.beforeLoadDex (fakeExternals true rejectsBuffer) (State.initial ())).1.2
        (Load.beforeLoadDex (fakeExternals true rejectsBuffer) (State.initial ())).2
    ∧ (Load (fakeExternals true rejectsBuffer) (State.initial ())).trace.drop 22 =
        [.LOGE "InMemoryDexClassLoader creation failed!!!",
         .jni (.DeleteLocalRef 1) 1, .jni (.DeleteLocalRef 1) 1, .jni (.DeleteLocalRef 1) 1,
         .jni (.DeleteLocalRef 1) 1, .jni (.DeleteLocalRef 1) 1, .jni (.DeleteLocalRef 1) 1,
         .jni (.DeleteLocalRef 1) 1, .jni (.DeleteLocalRef 1) 1, .jni (.DeleteLocalRef 1) 1,
         .ContextInitHooks,
         .HookSyms art.profileSaverSyms true, .HookSymNoHandle "execve" 128 true,
         .DisableBackgroundVerification, .RegisterNatives "SigBypass" ["enableOpenatHook"],
         .FindClassFromLoader 0 entryClassName 0, .FindAndCall "onLoad" "()V",
         .jni (.DeleteLocalRef 1) 1] :=
  ⟨Or.inl rfl, rfl, Or.inr rfl, rfl⟩

/-- C4, amended: a Payload Loader failure is not escalated and is not fatal to the attach
sequence.  Let `st1` be the state `LoadDex` returns in `Load`; when `LoadDex` failed,
`inject_class_loader_` is still what it was.  In every environment, failing ones included,
`Load` goes on from `st1`: it stores the capabilities in `handler` and applies
`Context::InitHooks`, `HookSyms`, the `execve` install, `DisableBackgroundVerification` and
`RegisterBypass` to the world (`InitHooks`), looks the entry class up with the current class
loader and keeps a global reference when it is found (`SetupEntryClass`), calls `onLoad`
through `FindAndCall`, and releases its local `stub`. -/
theorem Load_runs_every_stage {W : Type} (X : Externals W) (s : State W)
    (stub : Ptr) (dex : PreloadedDex) (st0 st1 : State W)
    (outcome : Bool) (w1 : W) (r : Bool) (w2 : W) (cls : Ptr) (w3 : W)
    (hbefore : Load.beforeLoadDex X s = ((stub, dex), st0))
    (hLoadDex : LoadDex X dex st0 = st1)
    (hsyms : X.HookSyms (some (Load.initInfo X)) art.profileSaverSyms
      (X.ContextInitHooks (some (Load.initInfo X)) st1.world) = (outcome, w1))
    (hexecve : X.HookSymNoHandle (some (Load.initInfo X)) X.execveAddress "execve" w1 = (r, w2))
    (hfind : X.FindClassFromLoader (X.GetCurrentClassLoader st1.inject_class_loader_)
      entryClassName
      (X.RegisterNatives "SigBypass" ["enableOpenatHook"]
        (X.DisableBackgroundVerification (some (Load.initInfo X)) w2)) = (cls, w3)) :
    (LoadDexFails X dex st0 → st1.inject_class_loader_ = s.inject_class_loader_)
    ∧ (cls = nullptr →
        Load X s =
          releaseLocal X stub
            { st1 with
              handler := some (Load.initInfo X)
              world := X.FindAndCall st1.entry_class_ "onLoad" "()V" w3
              trace := st1.trace ++
                [.ContextInitHooks, .HookSyms art.profileSaverSyms outcome,
                 .HookSymNoHandle "execve" X.execveAddress r, .DisableBackgroundVerification,
                 .RegisterNatives "SigBypass" ["enableOpenatHook"],
                 .FindClassFromLoader (X.GetCurrentClassLoader st1.inject_class_loader_)
                   entryClassName cls,
                 .FindAndCall "onLoad" "()V"] })
    ∧ (cls ≠ nullptr → ∀ (g : Ptr) (w4 : W) (d : Ptr) (w5 : W),
        X.jni (.NewGlobalRef cls) w3 = (g, w4) →
        X.jni (.DeleteLocalRef cls) w4 = (d, w5) →
        Load X s =
          releaseLocal X stub
            { st1 with
              handler := some (Load.initInfo X)
              entry_class_ := g
              world := X.FindAndCall g "onLoad" "()V" w5
              trace := st1.trace ++
                [.ContextInitHooks, .HookSyms art.profileSaverSyms outcome,
                 .HookSymNoHandle "execve" X.execveAddress r, .DisableBackgroundVerification,
                 .RegisterNatives "SigBypass" ["enableOpenatHook"],
                 .FindClassFromLoader (X.GetCurrentClassLoader st1.inject_class_loader_)
                   entryClassName cls,
                 .jni (.NewGlobalRef cls) g, .jni (.DeleteLocalRef cls) d,
                 .FindAndCall "onLoad" "()V"] })
    ∧ (∀ (ref : Ptr) (st : State W), releaseLocal X ref st =
        if ref = nullptr then st
        else { st with
               world := (X.jni (.DeleteLocalRef ref) st.world).2
               trace := st.trace ++
                 [.jni (.DeleteLocalRef ref) (X.jni (.DeleteLocalRef ref) st.world).1] }) := by
  have hst0 : st0.inject_class_loader_ = s.inject_class_loader_ := by
    have h : (Load.beforeLoadDex X s).2.inject_class_loader_ = s.inject_class_loader_ := rfl
    rw [hbefore] at h
    exact h
  have hinit := InitHooks_eq X (Load.initInfo X) st1 outcome w1 r w2 hsyms hexecve
  refine ⟨?_, ?_, ?_, releaseLocal_eq X⟩
  · intro hf
    rw [← hLoadDex, LoadDex_failure_keeps_loader X dex st0 hf, hst0]
  · intro hcls
    rw [Load_unfold X s stub dex st0 hbefore, hLoadDex, hinit]
    rw [SetupEntryClass_not_found X _ w3 (by rw [← hcls]; exact hfind)]
    simp [FindAndCall, State.emit, hcls]
  · intro hcls g w4 d w5 hglobal hdelete
    rw [Load_unfold X s stub dex st0 hbefore, hLoadDex, hinit]
    rw [SetupEntryClass_found X _ cls w3 g w4 d w5 hcls hfind hglobal hdelete]
    simp [FindAndCall, State.emit]

/-- Witness of amended C4: with a null parent class loader `LoadDex` fails, and `Load` ends
having run `InitHooks`, the class lookup of `SetupEntryClass` and the `onLoad` call. -/
theorem Load_runs_every_stage_witness :
    LoadDexFails (fakeExternals true noParentLoader)
        (Load.beforeLoadDex (fakeExternals true noParentLoader) (State.initial ())).1.2
        (Load.beforeLoadDex (fakeExternals true noParentLoader) (State.initial ())).2
    ∧ (Load (fakeExternals true noParentLoader) (State.initial ())).trace.drop 24 =
        [.ContextInitHooks,
         .HookSyms art.profileSaverSyms true, .HookSymNoHandle "execve" 128 true,
         .DisableBackgroundVerification, .RegisterNatives "SigBypass" ["enableOpenatHook"],
         .FindClassFromLoader 0 entryClassName 0, .FindAndCall "onLoad" "()V",
         .jni (.DeleteLocalRef 1) 1] :=
  ⟨Or.inl rfl,
   congrArg (fun st : State Unit => st.trace.drop 24)
     ((Load_runs_every_stage (fakeExternals true noParentLoader) (State.initial ())
        1 ⟨1, 1⟩
        (Load.beforeLoadDex (fakeExternals true noParentLoader) (State.initial ())).2
        (LoadDex (fakeExternals true noParentLoader) ⟨1, 1⟩
          (Load.beforeLoadDex (fakeExternals true noParentLoader) (State.initial ())).2)
        true () true () 0 () rfl rfl rfl rfl rfl).2.1 rfl)⟩

end lspd

end LSPatch
